import Mathlib

/- Shallow embedding of the Opentrons Tempdeck serial driver
   (file ot_tempdeck/_driver.py): command framing, line reading,
   acknowledgment handling, response parsing, and the public
   operations, together with theorems about the claims. -/

/- Python string-helper model.  The driver manipulates Python strings
   with rstrip, strip, split, split-on-first-colon and float parsing;
   these are modelled here over character lists. -/

/-- Whitespace characters recognised by Python default strip and split:
space, tab, newline, carriage return, vertical tab, form feed. -/
def pyIsSpace (c : Char) : Bool :=
  c == ' ' || c == '\t' || c == '\n' || c == '\r' ||
  c == Char.ofNat 11 || c == Char.ofNat 12

/-- List-level model of Python rstrip with no arguments. -/
def rstripL (l : List Char) : List Char :=
  (l.reverse.dropWhile pyIsSpace).reverse

/-- List-level model of Python lstrip with no arguments. -/
def lstripL (l : List Char) : List Char :=
  l.dropWhile pyIsSpace

/-- Model of the Python expression line.rstrip(). -/
def pyRstrip (s : String) : String :=
  ⟨rstripL s.data⟩

/-- Model of the Python expression line.strip(). -/
def pyStrip (s : String) : String :=
  ⟨lstripL (rstripL s.data)⟩

/-- Tests whether a string is nonempty and its last character is a
newline; the negation is the timeout condition checked by the driver
after a raw readline. -/
def endsNewline (s : String) : Bool :=
  match s.data.getLast? with
  | some c => c == '\n'
  | Option.none => false

/-- Accumulator-based worker for whitespace splitting; the accumulator
holds the current word reversed. -/
def wordsAcc : List Char → List Char → List (List Char)
  | [], acc => if acc.isEmpty then [] else [acc.reverse]
  | c :: cs, acc =>
    if pyIsSpace c then
      if acc.isEmpty then wordsAcc cs [] else acc.reverse :: wordsAcc cs []
    else wordsAcc cs (c :: acc)

/-- Model of Python str.split() with no arguments: split on runs of
whitespace, discarding empty pieces. -/
def pySplit (s : String) : List String :=
  (wordsAcc s.data []).map (fun l => ⟨l⟩)

/-- Worker for splitting a character list at the first colon. -/
def splitFirstColon : List Char → Option (List Char × List Char)
  | [] => Option.none
  | c :: cs =>
    if c == ':' then some ([], cs)
    else (splitFirstColon cs).map (fun p => (c :: p.fst, p.snd))

/-- Model of the Python expression piece.split(":", 1) together with the
two-variable unpacking: yields none exactly when the unpacking would
raise ValueError, i.e. when the string has no colon. -/
def pySplitColon1 (s : String) : Option (String × String) :=
  (splitFirstColon s.data).map (fun p => (⟨p.fst⟩, ⟨p.snd⟩))

/-- Decimal digit characters. -/
def digitChars : List Char :=
  ['0', '1', '2', '3', '4', '5', '6', '7', '8', '9']

/-- Tests whether a character is a decimal digit. -/
def isDigitChar (c : Char) : Bool :=
  digitChars.contains c

/-- Numeric value of a digit list, most significant first. -/
def digitsToNat (l : List Char) : Nat :=
  l.foldl (fun n c => 10 * n + (c.toNat - 48)) 0

/-- Unsigned part of Python float parsing: digits with an optional
fraction part, at least one digit overall, yielding the value as a
numerator and positive denominator.  Exponents, inf, nan, underscores
and surrounding whitespace are accepted by Python but are not used by
this protocol and are not modelled; every string this function accepts
is accepted by Python float with the same value. -/
def pyFloatMag (cs : List Char) : Option (Nat × Nat) :=
  let ip := cs.takeWhile isDigitChar
  let rest := cs.dropWhile isDigitChar
  match rest with
  | [] => if ip.isEmpty then Option.none else some (digitsToNat ip, 1)
  | c :: frac =>
    if c == '.' then
      if frac.all isDigitChar then
        if ip.isEmpty && frac.isEmpty then Option.none
        else some (digitsToNat ip * 10 ^ frac.length + digitsToNat frac,
          10 ^ frac.length)
      else Option.none
    else Option.none

/-- Model of Python float(s) as a partial function to exact rationals:
optional sign followed by the unsigned part.  Returns none exactly when
Python float would raise ValueError (on the modelled fragment). -/
def pyFloat (s : String) : Option Rat :=
  match s.data with
  | '+' :: cs => (pyFloatMag cs).map (fun p => mkRat p.fst p.snd)
  | '-' :: cs => (pyFloatMag cs).map (fun p => mkRat (-(p.fst : Int)) p.snd)
  | cs => (pyFloatMag cs).map (fun p => mkRat p.fst p.snd)

/-- Single quote character, used when rendering Python repr text. -/
def squote : String :=
  (Char.ofNat 39).toString

/-- Model of Python repr for the strings appearing in this protocol:
the text wrapped in single quotes.  Faithful for strings containing no
quote, backslash or unprintable character, which is the only use the
driver makes of repr in its error messages. -/
def pyRepr (s : String) : String :=
  squote ++ s ++ squote

/- Driver embedding proper. -/

deriving instance DecidableEq for Except

/-- Error taxonomy of the driver that is reachable from the protocol
engine itself: InvalidResponse carries its diagnostic message,
ResponseTimeout carries none. -/
inductive DriverError where
  | invalidResponse (msg : String)
  | responseTimeout
deriving DecidableEq

/-- State of the serial port as the driver sees it: the queue of raw
results that successive readline calls will return, and the log of byte
strings written so far. -/
structure PortState where
  incoming : List String
  written : List String
deriving DecidableEq

/-- Model of ser_port.readline(): pops the next queued raw result, or
returns the empty string (timeout with no data) when the queue is
exhausted. -/
def readlinePort (st : PortState) : String × PortState :=
  match st.incoming with
  | [] => ("", st)
  | l :: rest => (l, { st with incoming := rest })

/-- Values produced by the type-conversion callables the driver passes
to its response parser: Python str, float, or None. -/
inductive PyVal where
  | str (s : String)
  | float (q : Rat)
  | none
deriving DecidableEq

/-- Conversion callables used by the driver: str (the default), float,
and the float-or-none lambda of get_temps. -/
inductive Conv where
  | toStr
  | toFloat
  | floatOrNone
deriving DecidableEq

/-- Applies a conversion callable to a raw value; none models a raised
ValueError. -/
def applyConv : Conv → String → Option PyVal
  | Conv.toStr, s => some (PyVal.str s)
  | Conv.toFloat, s => (pyFloat s).map PyVal.float
  | Conv.floatOrNone, s =>
    if s == "none" then some PyVal.none else (pyFloat s).map PyVal.float

/-- Model of the Python dict built by the response parser: an
insertion-ordered association list. -/
abbrev Dict := List (String × PyVal)

/-- Model of info[k] = v on a Python dict: overwrite in place if the
key exists, else append. -/
def dictInsert (d : Dict) (k : String) (v : PyVal) : Dict :=
  if d.any (fun p => p.fst == k) then
    d.map (fun p => if p.fst == k then (k, v) else p)
  else d ++ [(k, v)]

/-- Model of dict lookup, returning none when the key is absent. -/
def dictFind? (d : Dict) (k : String) : Option PyVal :=
  (d.find? (fun p => p.fst == k)).map (fun p => p.snd)

/-- Model of types.get(left, str): the conversion registered for a key,
defaulting to str. -/
def typesGet (ts : List (String × Conv)) (k : String) : Conv :=
  match ts.find? (fun p => p.fst == k) with
  | some p => p.snd
  | Option.none => Conv.toStr

/-- Error message raised by wait_for_ack for a non-ok line; matches the
f-string in the source. -/
def unexpectedAckMsg (line : String) : String :=
  "Unexpected response when we expected " ++ squote ++ "ok" ++ squote ++
    ": " ++ pyRepr line

/-- Error message raised by the response parser for a bad piece; matches
the f-string in the source. -/
def cantParseMsg (piece response : String) : String :=
  "Couldn" ++ squote ++ "t parse this part: " ++ pyRepr piece ++
    " -- full response was " ++ pyRepr response

/-- Error message raised when a required key is absent from a parsed
response; matches the f-strings in the source. -/
def missingKeyMsg (desc response : String) : String :=
  "Response missing value for " ++ desc ++ ": " ++ pyRepr response

namespace TempdeckControl

/-- Embedding of TempdeckControl._send_command: write cmd plus CRLF to
the transport. -/
def send_command (st : PortState) (cmd : String) : PortState :=
  { st with written := st.written ++ [cmd ++ "\r\n"] }

/-- Embedding of TempdeckControl._read_line: raise ResponseTimeout when
the raw readline result is empty or does not end in a newline, else
return the result rstripped. -/
def read_line (st : PortState) : Except DriverError String × PortState :=
  let p := readlinePort st
  if p.fst == "" || !endsNewline p.fst then
    (Except.error DriverError.responseTimeout, p.snd)
  else
    (Except.ok (pyRstrip p.fst), p.snd)

/-- Body of the two-iteration loop of TempdeckControl._wait_for_ack,
with the remaining iteration count explicit. -/
def ackLoop : Nat → PortState → Except DriverError Unit × PortState
  | 0, st => (Except.ok (), st)
  | n + 1, st =>
    match read_line st with
    | (Except.error e, st₁) => (Except.error e, st₁)
    | (Except.ok line, st₁) =>
      if line == "ok" then ackLoop n st₁
      else (Except.error (DriverError.invalidResponse (unexpectedAckMsg line)), st₁)

/-- Embedding of TempdeckControl._wait_for_ack: read two lines, each of
which must be exactly ok. -/
def wait_for_ack (st : PortState) : Except DriverError Unit × PortState :=
  ackLoop 2 st

/-- Embedding of the parsing loop inside TempdeckControl._ask, over the
remaining pieces and the dict built so far. -/
def parsePieces (ts : List (String × Conv)) (response : String) :
    List String → Dict → Except DriverError Dict
  | [], info => Except.ok info
  | piece :: rest, info =>
    match pySplitColon1 piece with
    | Option.none =>
      Except.error (DriverError.invalidResponse (cantParseMsg piece response))
    | some lr =>
      match applyConv (typesGet ts lr.fst) lr.snd with
      | Option.none =>
        Except.error (DriverError.invalidResponse (cantParseMsg piece response))
      | some v => parsePieces ts response rest (dictInsert info lr.fst v)

/-- Parsing phase of TempdeckControl._ask applied to a whole stripped
response line. -/
def parseResponse (ts : List (String × Conv)) (response : String) :
    Except DriverError Dict :=
  parsePieces ts response (pySplit response) []

/-- Embedding of TempdeckControl._ask: send the command, read and strip
one response line, consume the two-line acknowledgment, then parse the
response into a typed dict, returning the dict with the raw line. -/
def ask (st : PortState) (cmd : String) (ts : List (String × Conv)) :
    Except DriverError (Dict × String) × PortState :=
  let st₁ := send_command st cmd
  match read_line st₁ with
  | (Except.error e, st₂) => (Except.error e, st₂)
  | (Except.ok raw, st₂) =>
    let response := pyStrip raw
    match wait_for_ack st₂ with
    | (Except.error e, st₃) => (Except.error e, st₃)
    | (Except.ok _, st₃) =>
      match parseResponse ts response with
      | Except.error e => (Except.error e, st₃)
      | Except.ok info => (Except.ok (info, response), st₃)

/-- Embedding of TempdeckControl._populate_device_info: ask M115 with
default str conversions and require the model, serial and version keys,
in that checking order. -/
def populate_device_info (st : PortState) :
    Except DriverError (PyVal × PyVal × PyVal) × PortState :=
  match ask st "M115" [] with
  | (Except.error e, st₁) => (Except.error e, st₁)
  | (Except.ok ir, st₁) =>
    match dictFind? ir.fst "model" with
    | Option.none =>
      (Except.error (DriverError.invalidResponse (missingKeyMsg "model" ir.snd)), st₁)
    | some m =>
      match dictFind? ir.fst "serial" with
      | Option.none =>
        (Except.error (DriverError.invalidResponse (missingKeyMsg "serial" ir.snd)), st₁)
      | some s =>
        match dictFind? ir.fst "version" with
        | Option.none =>
          (Except.error (DriverError.invalidResponse (missingKeyMsg "version" ir.snd)), st₁)
        | some v => (Except.ok (m, s, v), st₁)

/-- Zero-padded three-digit rendering of a number below 1000, used for
the fractional part of the 3-decimal format. -/
def pad3 (n : Nat) : String :=
  if n < 10 then "00" ++ toString n
  else if n < 100 then "0" ++ toString n
  else toString n

/-- Nearest integer to one thousand times the input, computed on the
numerator and denominator: the floor of 1000q + 1/2. -/
def round3 (q : Rat) : Int :=
  Int.fdiv (2000 * q.num + q.den) (2 * q.den)

/-- Model of the Python format specifier .3f on the exact value of the
input: fixed three decimal places, rounding to the nearest thousandth.
CPython rounds the underlying binary double correctly; exact decimal
ties, where the two conventions could differ, cannot arise from the
binary doubles this driver formats. -/
def format3f (q : Rat) : String :=
  let n : Int := round3 q
  let sign := if n < 0 then "-" else ""
  sign ++ toString (n.natAbs / 1000) ++ "." ++ pad3 (n.natAbs % 1000)

/-- Embedding of TempdeckControl.set_target_temp: send M104 with the
temperature rendered to three decimal places, then consume the two-line
acknowledgment. -/
def set_target_temp (temp : Rat) (st : PortState) :
    Except DriverError Unit × PortState :=
  wait_for_ack (send_command st ("M104 S" ++ format3f temp))

/-- Embedding of TempdeckControl.get_temps: ask M105 with float
conversion for C and float-or-none for T, require both keys (C checked
first), and return the pair (target, current). -/
def get_temps (st : PortState) :
    Except DriverError (PyVal × PyVal) × PortState :=
  match ask st "M105" [("C", Conv.toFloat), ("T", Conv.floatOrNone)] with
  | (Except.error e, st₁) => (Except.error e, st₁)
  | (Except.ok ir, st₁) =>
    match dictFind? ir.fst "C" with
    | Option.none =>
      (Except.error (DriverError.invalidResponse (missingKeyMsg "current temp" ir.snd)), st₁)
    | some _ =>
      match dictFind? ir.fst "T" with
      | Option.none =>
        (Except.error (DriverError.invalidResponse (missingKeyMsg "target temp" ir.snd)), st₁)
      | some t =>
        match dictFind? ir.fst "C" with
        | some c => (Except.ok (t, c), st₁)
        | Option.none =>
          (Except.error (DriverError.invalidResponse (missingKeyMsg "current temp" ir.snd)), st₁)

/-- Embedding of TempdeckControl.get_target_temp: run get_temps and
return the first component. -/
def get_target_temp (st : PortState) : Except DriverError PyVal × PortState :=
  match get_temps st with
  | (Except.error e, st₁) => (Except.error e, st₁)
  | (Except.ok tc, st₁) => (Except.ok tc.fst, st₁)

/-- Embedding of TempdeckControl.get_current_temp: run get_temps and
return the second component. -/
def get_current_temp (st : PortState) : Except DriverError PyVal × PortState :=
  match get_temps st with
  | (Except.error e, st₁) => (Except.error e, st₁)
  | (Except.ok tc, st₁) => (Except.ok tc.snd, st₁)

/-- Embedding of TempdeckControl.deactivate: send M18 and return at
once, reading nothing. -/
def deactivate (st : PortState) : Except DriverError Unit × PortState :=
  (Except.ok (), send_command st "M18")

/-- Instance state of a constructed TempdeckControl: the serial port and
the three identity attributes set by _populate_device_info.  The
model_name, serial_no and fw_version fields double as the read-only
property accessors of the class. -/
structure State where
  ser_port : PortState
  model_name : PyVal
  serial_no : PyVal
  fw_version : PyVal
deriving DecidableEq

/-- Embedding of TempdeckControl.__init__: store the port and populate
the device identity, failing if the identify exchange fails. -/
def init (port : PortState) : Except DriverError State × PortState :=
  match populate_device_info port with
  | (Except.error e, p) => (Except.error e, p)
  | (Except.ok msv, p) =>
    (Except.ok ⟨p, msv.fst, msv.snd.fst, msv.snd.snd⟩, p)

/-- Instance-level set_target_temp: the method touches only the serial
port, threading the identity fields through unchanged. -/
def State.set_target_temp (temp : Rat) (s : State) :
    Except DriverError Unit × State :=
  let r := TempdeckControl.set_target_temp temp s.ser_port
  (r.fst, { s with ser_port := r.snd })

/-- Instance-level get_temps. -/
def State.get_temps (s : State) : Except DriverError (PyVal × PyVal) × State :=
  let r := TempdeckControl.get_temps s.ser_port
  (r.fst, { s with ser_port := r.snd })

/-- Instance-level get_target_temp. -/
def State.get_target_temp (s : State) : Except DriverError PyVal × State :=
  let r := TempdeckControl.get_target_temp s.ser_port
  (r.fst, { s with ser_port := r.snd })

/-- Instance-level get_current_temp. -/
def State.get_current_temp (s : State) : Except DriverError PyVal × State :=
  let r := TempdeckControl.get_current_temp s.ser_port
  (r.fst, { s with ser_port := r.snd })

/-- Instance-level deactivate. -/
def State.deactivate (s : State) : Except DriverError Unit × State :=
  let r := TempdeckControl.deactivate s.ser_port
  (r.fst, { s with ser_port := r.snd })

end TempdeckControl

/-- Tests whether one piece of a response would parse in _ask: it has a
colon and its value survives the conversion registered for its key. -/
def goodPiece (ts : List (String × Conv)) (p : String) : Bool :=
  match pySplitColon1 p with
  | Option.none => false
  | some lr => (applyConv (typesGet ts lr.fst) lr.snd).isSome

/- Helper lemmas about the embedding, shared by the claim proofs. -/

theorem endsNewline_empty : endsNewline "" = false := rfl

theorem beq_empty_false_of_endsNewline {a : String} (h : endsNewline a = true) :
    (a == "") = false := by
  rcases hb : a == "" with _ | _
  · rfl
  · rw [eq_of_beq hb] at h
    exact absurd h (by simp [endsNewline_empty])

namespace TempdeckControl

theorem read_line_nil (w : List String) :
    read_line ⟨[], w⟩ = (Except.error DriverError.responseTimeout, ⟨[], w⟩) := rfl

theorem read_line_cons_bad (a : String) (inc w : List String)
    (h : endsNewline a = false) :
    read_line ⟨a :: inc, w⟩ = (Except.error DriverError.responseTimeout, ⟨inc, w⟩) := by
  simp [read_line, readlinePort, h]

theorem read_line_cons_good (a : String) (inc w : List String)
    (h : endsNewline a = true) :
    read_line ⟨a :: inc, w⟩ = (Except.ok (pyRstrip a), ⟨inc, w⟩) := by
  simp [read_line, readlinePort, h, beq_empty_false_of_endsNewline h]

end TempdeckControl

namespace TempdeckControl

theorem wait_for_ack_first_not_ok (a : String) (inc w : List String)
    (h1 : endsNewline a = true) (h2 : pyRstrip a ≠ "ok") :
    wait_for_ack ⟨a :: inc, w⟩ =
      (Except.error (DriverError.invalidResponse (unexpectedAckMsg (pyRstrip a))),
       ⟨inc, w⟩) := by
  simp [wait_for_ack, ackLoop, read_line_cons_good a inc w h1, h2]

theorem wait_for_ack_two_ok (a b : String) (inc w : List String)
    (ha1 : endsNewline a = true) (ha2 : pyRstrip a = "ok")
    (hb1 : endsNewline b = true) (hb2 : pyRstrip b = "ok") :
    wait_for_ack ⟨a :: b :: inc, w⟩ = (Except.ok (), ⟨inc, w⟩) := by
  simp [wait_for_ack, ackLoop, read_line_cons_good a _ w ha1,
    read_line_cons_good b inc w hb1, ha2, hb2]

theorem ask_run_ok (cmd : String) (ts : List (String × Conv))
    (raw a1 a2 : String) (rest w : List String) (info : Dict)
    (h0 : endsNewline raw = true)
    (ha1 : endsNewline a1 = true) (ha2 : pyRstrip a1 = "ok")
    (hb1 : endsNewline a2 = true) (hb2 : pyRstrip a2 = "ok")
    (hp : parseResponse ts (pyStrip (pyRstrip raw)) = Except.ok info) :
    ask ⟨raw :: a1 :: a2 :: rest, w⟩ cmd ts =
      (Except.ok (info, pyStrip (pyRstrip raw)), ⟨rest, w ++ [cmd ++ "\r\n"]⟩) := by
  simp [ask, send_command, read_line_cons_good raw _ _ h0,
    wait_for_ack_two_ok a1 a2 rest (w ++ [cmd ++ "\r\n"]) ha1 ha2 hb1 hb2, hp]

theorem ask_run_err (cmd : String) (ts : List (String × Conv))
    (raw a1 a2 : String) (rest w : List String) (e : DriverError)
    (h0 : endsNewline raw = true)
    (ha1 : endsNewline a1 = true) (ha2 : pyRstrip a1 = "ok")
    (hb1 : endsNewline a2 = true) (hb2 : pyRstrip a2 = "ok")
    (hp : parseResponse ts (pyStrip (pyRstrip raw)) = Except.error e) :
    ask ⟨raw :: a1 :: a2 :: rest, w⟩ cmd ts =
      (Except.error e, ⟨rest, w ++ [cmd ++ "\r\n"]⟩) := by
  simp [ask, send_command, read_line_cons_good raw _ _ h0,
    wait_for_ack_two_ok a1 a2 rest (w ++ [cmd ++ "\r\n"]) ha1 ha2 hb1 hb2, hp]

end TempdeckControl

namespace TempdeckControl

/-- C1: counter to the claim that deactivate consumes a two-line
acknowledgment, the embedded deactivate writes M18 and returns at once:
run against a transport whose queue holds the two ok lines the firmware
sends, it succeeds while leaving both lines unconsumed, and it can raise
neither ResponseTimeout nor InvalidResponse even though its own
docstring advertises both. -/
theorem deactivate_fire_and_forget :
    deactivate ⟨["ok\n", "ok\n"], []⟩ =
      (Except.ok (), ⟨["ok\n", "ok\n"], ["M18\r\n"]⟩) := rfl

/-- C9: the three device-identity fields populated at connection open
are unchanged by set_target_temp, get_temps, get_target_temp,
get_current_temp and deactivate: after any of these calls the values of
the model_name, serial_no and fw_version accessors equal their values
before the call. -/
theorem identity_frame_spec (s : State) (temp : Rat) :
    ((State.set_target_temp temp s).snd.model_name = s.model_name ∧
     (State.set_target_temp temp s).snd.serial_no = s.serial_no ∧
     (State.set_target_temp temp s).snd.fw_version = s.fw_version) ∧
    ((State.get_temps s).snd.model_name = s.model_name ∧
     (State.get_temps s).snd.serial_no = s.serial_no ∧
     (State.get_temps s).snd.fw_version = s.fw_version) ∧
    ((State.get_target_temp s).snd.model_name = s.model_name ∧
     (State.get_target_temp s).snd.serial_no = s.serial_no ∧
     (State.get_target_temp s).snd.fw_version = s.fw_version) ∧
    ((State.get_current_temp s).snd.model_name = s.model_name ∧
     (State.get_current_temp s).snd.serial_no = s.serial_no ∧
     (State.get_current_temp s).snd.fw_version = s.fw_version) ∧
    ((State.deactivate s).snd.model_name = s.model_name ∧
     (State.deactivate s).snd.serial_no = s.serial_no ∧
     (State.deactivate s).snd.fw_version = s.fw_version) :=
  ⟨⟨rfl, rfl, rfl⟩, ⟨rfl, rfl, rfl⟩, ⟨rfl, rfl, rfl⟩, ⟨rfl, rfl, rfl⟩,
   ⟨rfl, rfl, rfl⟩⟩

end TempdeckControl

namespace TempdeckControl

theorem ackLoop_snd (n : Nat) : ∀ st : PortState,
    ∃ k, k ≤ n ∧ (ackLoop n st).snd = ⟨st.incoming.drop k, st.written⟩ := by
  induction n with
  | zero => exact fun st => ⟨0, Nat.le_refl 0, rfl⟩
  | succ n ih =>
    intro ⟨inc, w⟩
    rcases inc with _ | ⟨a, inc1⟩
    · exact ⟨0, Nat.zero_le _, rfl⟩
    · by_cases hend : endsNewline a = true
      · by_cases hok : pyRstrip a = "ok"
        · obtain ⟨k, hk, hsnd⟩ := ih ⟨inc1, w⟩
          refine ⟨k + 1, by omega, ?_⟩
          simp [ackLoop, read_line_cons_good a inc1 w hend, hok, hsnd]
        · exact ⟨1, by omega, by
            simp [ackLoop, read_line_cons_good a inc1 w hend, hok]⟩
      · exact ⟨1, by omega, by
          simp [ackLoop,
            read_line_cons_bad a inc1 w (Bool.not_eq_true _ ▸ hend)]⟩

end TempdeckControl

namespace TempdeckControl

/-- C4 (amended): wait_for_ack consumes at most two queued lines and
never touches the written log; if the first well-formed line read is not
exactly ok, it fails at once with InvalidResponse whose message embeds
the repr of the offending stripped line, leaving the rest of the queue
(in particular the second line) unread.  The message does not say which
of the two lines failed. -/
theorem wait_for_ack_spec (st : PortState) :
    (∃ k, k ≤ 2 ∧ (wait_for_ack st).snd = ⟨st.incoming.drop k, st.written⟩) ∧
    (∀ raw rest, st.incoming = raw :: rest → endsNewline raw = true →
      pyRstrip raw ≠ "ok" →
      wait_for_ack st =
        (Except.error (DriverError.invalidResponse (unexpectedAckMsg (pyRstrip raw))),
         ⟨rest, st.written⟩)) ∧
    (∀ line, ∃ u v, unexpectedAckMsg line = u ++ pyRepr line ++ v) := by
  refine ⟨ackLoop_snd 2 st, ?_, ?_⟩
  · intro raw rest hinc h1 h2
    rcases st with ⟨inc, w⟩
    cases hinc
    exact wait_for_ack_first_not_ok raw rest w h1 h2
  · intro line
    refine ⟨"Unexpected response when we expected " ++ squote ++ "ok" ++
      squote ++ ": ", "", ?_⟩
    simp [unexpectedAckMsg, String.append_assoc]

/-- C4 witness: concrete run where the first acknowledgment line is the
text err: the call fails with the expected message and the second queued
line stays unread. -/
theorem wait_for_ack_spec_witness :
    wait_for_ack ⟨["err\n", "x\n"], []⟩ =
      (Except.error (DriverError.invalidResponse (unexpectedAckMsg "err")),
       ⟨["x\n"], []⟩) :=
  (wait_for_ack_spec ⟨["err\n", "x\n"], []⟩).2.1 "err\n" ["x\n"] rfl
    (by decide) (by decide)

/-- C4 counterexample to the original claim that the error names which
line number failed: a failure on the first line and a failure on the
second line with the same content produce identical errors, so the error
cannot indicate the line number. -/
theorem ack_error_same_for_both_lines :
    (wait_for_ack ⟨["bad\n", "x\n"], []⟩).fst =
      Except.error (DriverError.invalidResponse (unexpectedAckMsg "bad")) ∧
    (wait_for_ack ⟨["ok\n", "bad\n"], []⟩).fst =
      Except.error (DriverError.invalidResponse (unexpectedAckMsg "bad")) :=
  ⟨rfl, rfl⟩

end TempdeckControl

namespace TempdeckControl

/-- C7: read_line yields ResponseTimeout exactly when the raw readline
result is empty (no data) or does not end in a newline; on success it
returns the line with trailing whitespace and newline stripped.  With a
transport that never produces a newline (modelled by an exhausted queue,
where every readline returns no data), every public operation that reads
a line - set_target_temp, get_temps, get_target_temp, get_current_temp
and the identify exchange at construction - fails with ResponseTimeout. -/
theorem read_line_timeout_spec (raw : String) (rest w : List String) (temp : Rat) :
    ((read_line ⟨raw :: rest, w⟩).fst = Except.error DriverError.responseTimeout ↔
      (raw = "" ∨ endsNewline raw = false)) ∧
    (endsNewline raw = true →
      read_line ⟨raw :: rest, w⟩ = (Except.ok (pyRstrip raw), ⟨rest, w⟩)) ∧
    read_line ⟨[], w⟩ = (Except.error DriverError.responseTimeout, ⟨[], w⟩) ∧
    set_target_temp temp ⟨[], w⟩ =
      (Except.error DriverError.responseTimeout,
       ⟨[], w ++ ["M104 S" ++ format3f temp ++ "\r\n"]⟩) ∧
    get_temps ⟨[], w⟩ =
      (Except.error DriverError.responseTimeout, ⟨[], w ++ ["M105\r\n"]⟩) ∧
    get_target_temp ⟨[], w⟩ =
      (Except.error DriverError.responseTimeout, ⟨[], w ++ ["M105\r\n"]⟩) ∧
    get_current_temp ⟨[], w⟩ =
      (Except.error DriverError.responseTimeout, ⟨[], w ++ ["M105\r\n"]⟩) ∧
    init ⟨[], w⟩ =
      (Except.error DriverError.responseTimeout, ⟨[], w ++ ["M115\r\n"]⟩) := by
  refine ⟨?_, fun h => read_line_cons_good raw rest w h, rfl, rfl, rfl, rfl, rfl, rfl⟩
  constructor
  · intro h
    by_cases hend : endsNewline raw = true
    · rw [read_line_cons_good raw rest w hend] at h
      exact absurd h (by simp)
    · exact Or.inr (Bool.not_eq_true _ ▸ hend)
  · intro h
    have hend : endsNewline raw = false := by
      rcases h with h | h
      · rw [h]; rfl
      · exact h
    rw [read_line_cons_bad raw rest w hend]

end TempdeckControl

namespace TempdeckControl

/-- C7 witness: a well-formed line is returned stripped, and a partial
line with no newline times out. -/
theorem read_line_timeout_spec_witness :
    read_line ⟨["C:25.5 T:none\n"], []⟩ =
      (Except.ok "C:25.5 T:none", ⟨[], []⟩) ∧
    (read_line ⟨["partial"], []⟩).fst = Except.error DriverError.responseTimeout :=
  ⟨((read_line_timeout_spec "C:25.5 T:none\n" [] [] 0).2.1 (by decide)).trans
      (by decide),
   (read_line_timeout_spec "partial" [] [] 0).1.mpr (Or.inr (by decide))⟩

/-- C6: for every temperature, set_target_temp writes to the transport
exactly the text M104 S followed by the temperature rendered with three
fixed decimal places followed by CRLF, and consumes exactly the two
acknowledgment lines before returning. -/
theorem set_target_temp_spec (temp : Rat) (a1 a2 : String) (rest w : List String)
    (ha1 : endsNewline a1 = true) (ha2 : pyRstrip a1 = "ok")
    (hb1 : endsNewline a2 = true) (hb2 : pyRstrip a2 = "ok") :
    set_target_temp temp ⟨a1 :: a2 :: rest, w⟩ =
      (Except.ok (), ⟨rest, w ++ ["M104 S" ++ format3f temp ++ "\r\n"]⟩) := by
  simp [set_target_temp, send_command,
    wait_for_ack_two_ok a1 a2 rest (w ++ ["M104 S" ++ format3f temp ++ "\r\n"])
      ha1 ha2 hb1 hb2]

/-- C6 witness: input 35 (a value with no given decimals) produces the
literal command text M104 S35.000 and consumes the two ok lines. -/
theorem set_target_temp_spec_witness :
    set_target_temp 35 ⟨["ok\n", "ok\n"], []⟩ =
      (Except.ok (), ⟨[], ["M104 S35.000\r\n"]⟩) :=
  (set_target_temp_spec 35 "ok\n" "ok\n" [] [] (by decide) (by decide)
    (by decide) (by decide)).trans (by decide)

end TempdeckControl

theorem rstripL_append_spaces (l m : List Char)
    (hm : ∀ c ∈ m, pyIsSpace c = true) : rstripL (l ++ m) = rstripL l := by
  simp only [rstripL, List.reverse_append]
  rw [List.dropWhile_append_of_pos (by simpa using hm)]

theorem pyRstrip_append_spaces (s t : String)
    (ht : ∀ c ∈ t.data, pyIsSpace c = true) : pyRstrip (s ++ t) = pyRstrip s := by
  simp only [pyRstrip, String.data_append]
  rw [rstripL_append_spaces s.data t.data ht]

theorem rstripL_no_trailing (l m : List Char)
    (hm : ∀ c ∈ m, pyIsSpace c = false) (hne : m ≠ []) :
    rstripL (l ++ m) = l ++ m := by
  simp only [rstripL, List.reverse_append]
  rcases hrev : m.reverse with _ | ⟨c, restm⟩
  · exact absurd (by simpa using hrev) hne
  · have hc : c ∈ m := by
      rw [← List.mem_reverse, hrev]
      exact List.mem_cons_self c restm
    rw [List.cons_append, List.dropWhile_cons, hm c hc]
    show ((c :: restm) ++ l.reverse).reverse = l ++ m
    rw [← hrev]
    simp

theorem endsNewline_append_nl (s : String) : endsNewline (s ++ "\n") = true := by
  have h : "\n".data = ['\n'] := rfl
  simp only [endsNewline, String.data_append, h, List.getLast?_concat]
  rfl

namespace TempdeckControl

/-- C10: because read_line strips trailing whitespace before any
comparison, an acknowledgment line of ok followed by trailing blanks
before the newline is accepted, and trailing whitespace on any data line
never changes what read_line returns, so it can never by itself cause
InvalidResponse. -/
theorem trailing_whitespace_ack_spec (ws1 ws2 line : String) (rest w : List String)
    (h1 : ∀ c ∈ ws1.data, pyIsSpace c = true)
    (h2 : ∀ c ∈ ws2.data, pyIsSpace c = true) :
    wait_for_ack ⟨("ok" ++ ws1 ++ "\n") :: ("ok" ++ ws2 ++ "\n") :: rest, w⟩ =
      (Except.ok (), ⟨rest, w⟩) ∧
    read_line ⟨(line ++ ws1 ++ "\n") :: rest, w⟩ =
      read_line ⟨(line ++ "\n") :: rest, w⟩ := by
  have hnl : ∀ c ∈ "\n".data, pyIsSpace c = true := by decide
  have hstrip : ∀ t : String, (∀ c ∈ t.data, pyIsSpace c = true) →
      ∀ s : String, pyRstrip (s ++ t ++ "\n") = pyRstrip s := by
    intro t ht s
    rw [pyRstrip_append_spaces (s ++ t) "\n" hnl, pyRstrip_append_spaces s t ht]
  constructor
  · exact wait_for_ack_two_ok _ _ rest w (endsNewline_append_nl _)
      ((hstrip ws1 h1 "ok").trans (by decide)) (endsNewline_append_nl _)
      ((hstrip ws2 h2 "ok").trans (by decide))
  · rw [read_line_cons_good _ rest w (endsNewline_append_nl (line ++ ws1)),
      read_line_cons_good _ rest w (endsNewline_append_nl line),
      hstrip ws1 h1 line, pyRstrip_append_spaces line "\n" hnl]

/-- C10 witness: the acknowledgment pair with trailing blank and tab
before the newline is accepted, and a data line with a trailing blank
reads the same as without it. -/
theorem trailing_whitespace_ack_spec_witness :
    wait_for_ack ⟨["ok \t\n", "ok \n", "rest\n"], []⟩ =
      (Except.ok (), ⟨["rest\n"], []⟩) ∧
    read_line ⟨["C:25.5 \n"], []⟩ = read_line ⟨["C:25.5\n"], []⟩ := by
  have h := trailing_whitespace_ack_spec " \t" " " "C:25.5" ["rest\n"] []
    (by decide) (by decide)
  have h2 := trailing_whitespace_ack_spec " " " " "C:25.5" [] []
    (by decide) (by decide)
  exact ⟨h.1, h2.2⟩

end TempdeckControl

namespace TempdeckControl

/-- C3: the identify exchange done at construction succeeds exactly when
the parsed M115 response contains the model, serial and version keys
(regardless of where they sit in the dict and of extra keys), storing
exactly those three values as the instance identity; when any of the
three is absent the construction fails with InvalidResponse.  The
witness exercises a scrambled key order with an extra unknown key. -/
theorem identify_spec (port : PortState) (info : Dict) (response : String)
    (p : PortState)
    (hask : ask port "M115" [] = (Except.ok (info, response), p)) :
    (∀ m s v, dictFind? info "model" = some m →
      dictFind? info "serial" = some s → dictFind? info "version" = some v →
      init port = (Except.ok ⟨p, m, s, v⟩, p)) ∧
    ((dictFind? info "model" = Option.none ∨
      dictFind? info "serial" = Option.none ∨
      dictFind? info "version" = Option.none) →
      ∃ msg, init port = (Except.error (DriverError.invalidResponse msg), p)) := by
  constructor
  · intro m s v hm hs hv
    simp [init, populate_device_info, hask, hm, hs, hv]
  · intro h
    rcases hm : dictFind? info "model" with _ | m
    · exact ⟨missingKeyMsg "model" response,
        by simp [init, populate_device_info, hask, hm]⟩
    · rcases hs : dictFind? info "serial" with _ | s
      · exact ⟨missingKeyMsg "serial" response,
          by simp [init, populate_device_info, hask, hm, hs]⟩
      · rcases hv : dictFind? info "version" with _ | v
        · exact ⟨missingKeyMsg "version" response,
            by simp [init, populate_device_info, hask, hm, hs, hv]⟩
        · rw [hm, hs, hv] at h
          rcases h with h | h | h <;> exact absurd h (by simp)

/-- C3 witness: a response with scrambled key order and an extra key
yields a fully populated identity, and a response missing the serial key
makes construction fail with InvalidResponse. -/
theorem identify_spec_witness :
    init ⟨["serial:S1 version:2.0 model:TD x:y\n", "ok\n", "ok\n"], []⟩ =
      (Except.ok ⟨⟨[], ["M115\r\n"]⟩, PyVal.str "TD", PyVal.str "S1",
        PyVal.str "2.0"⟩, ⟨[], ["M115\r\n"]⟩) ∧
    ∃ msg,
      init ⟨["model:TD version:2.0\n", "ok\n", "ok\n"], []⟩ =
        (Except.error (DriverError.invalidResponse msg), ⟨[], ["M115\r\n"]⟩) :=
  ⟨(identify_spec ⟨["serial:S1 version:2.0 model:TD x:y\n", "ok\n", "ok\n"], []⟩
      [("serial", PyVal.str "S1"), ("version", PyVal.str "2.0"),
       ("model", PyVal.str "TD"), ("x", PyVal.str "y")]
      "serial:S1 version:2.0 model:TD x:y" ⟨[], ["M115\r\n"]⟩ (by decide)).1
      (PyVal.str "TD") (PyVal.str "S1") (PyVal.str "2.0")
      (by decide) (by decide) (by decide),
   (identify_spec ⟨["model:TD version:2.0\n", "ok\n", "ok\n"], []⟩
      [("model", PyVal.str "TD"), ("version", PyVal.str "2.0")]
      "model:TD version:2.0" ⟨[], ["M115\r\n"]⟩ (by decide)).2
      (Or.inr (Or.inl (by decide)))⟩

/-- C8: whenever the parsed M105 response lacks the C key, or has C but
lacks the T key, get_temps fails with InvalidResponse naming the missing
field, and the message embeds the repr of the raw response. -/
theorem get_temps_missing_key_spec (st : PortState) (info : Dict)
    (response : String) (p : PortState)
    (hask : ask st "M105" [("C", Conv.toFloat), ("T", Conv.floatOrNone)] =
      (Except.ok (info, response), p)) :
    (dictFind? info "C" = Option.none →
      get_temps st =
        (Except.error (DriverError.invalidResponse
          (missingKeyMsg "current temp" response)), p)) ∧
    (∀ c, dictFind? info "C" = some c → dictFind? info "T" = Option.none →
      get_temps st =
        (Except.error (DriverError.invalidResponse
          (missingKeyMsg "target temp" response)), p)) ∧
    (∀ desc, ∃ u v, missingKeyMsg desc response = u ++ pyRepr response ++ v) := by
  refine ⟨?_, ?_, ?_⟩
  · intro hc
    simp [get_temps, hask, hc]
  · intro c hc ht
    simp [get_temps, hask, hc, ht]
  · intro desc
    exact ⟨"Response missing value for " ++ desc ++ ": ", "",
      by simp [missingKeyMsg, String.append_assoc]⟩

/-- C8 witness: a response line carrying only T yields the current-temp
error and one carrying only C yields the target-temp error. -/
theorem get_temps_missing_key_spec_witness :
    get_temps ⟨["T:20.0\n", "ok\n", "ok\n"], []⟩ =
      (Except.error (DriverError.invalidResponse
        (missingKeyMsg "current temp" "T:20.0")), ⟨[], ["M105\r\n"]⟩) ∧
    get_temps ⟨["C:25.5\n", "ok\n", "ok\n"], []⟩ =
      (Except.error (DriverError.invalidResponse
        (missingKeyMsg "target temp" "C:25.5")), ⟨[], ["M105\r\n"]⟩) :=
  ⟨(get_temps_missing_key_spec ⟨["T:20.0\n", "ok\n", "ok\n"], []⟩
      [("T", PyVal.float 20)] "T:20.0" ⟨[], ["M105\r\n"]⟩ (by decide)).1
      (by decide),
   (get_temps_missing_key_spec ⟨["C:25.5\n", "ok\n", "ok\n"], []⟩
      [("C", PyVal.float (mkRat 51 2))] "C:25.5" ⟨[], ["M105\r\n"]⟩
      (by decide)).2.1 (PyVal.float (mkRat 51 2)) (by decide) (by decide)⟩

end TempdeckControl

namespace TempdeckControl

theorem parsePieces_cons_bad (ts : List (String × Conv)) (resp piece : String)
    (rest : List String) (info : Dict) (h : goodPiece ts piece = false) :
    parsePieces ts resp (piece :: rest) info =
      Except.error (DriverError.invalidResponse (cantParseMsg piece resp)) := by
  unfold goodPiece at h
  rcases hc : pySplitColon1 piece with _ | lr
  · simp [parsePieces, hc]
  · rw [hc] at h
    have h2 : (applyConv (typesGet ts lr.fst) lr.snd).isSome = false := h
    rcases ha : applyConv (typesGet ts lr.fst) lr.snd with _ | v
    · simp [parsePieces, hc, ha]
    · rw [ha] at h2
      exact absurd h2 (by simp)

theorem parsePieces_cons_good (ts : List (String × Conv)) (resp piece : String)
    (rest : List String) (info : Dict) (h : goodPiece ts piece = true) :
    ∃ l r v, pySplitColon1 piece = some (l, r) ∧
      applyConv (typesGet ts l) r = some v ∧
      parsePieces ts resp (piece :: rest) info =
        parsePieces ts resp rest (dictInsert info l v) := by
  unfold goodPiece at h
  rcases hc : pySplitColon1 piece with _ | ⟨l, r⟩
  · rw [hc] at h
    exact absurd h (by simp)
  · rw [hc] at h
    have h2 : (applyConv (typesGet ts l) r).isSome = true := h
    rcases ha : applyConv (typesGet ts l) r with _ | v
    · rw [ha] at h2
      exact absurd h2 (by simp)
    · exact ⟨l, r, v, rfl, ha, by simp [parsePieces, hc, ha]⟩

theorem parsePieces_all_good (ts : List (String × Conv)) (resp : String) :
    ∀ (pieces : List String) (info : Dict),
      (∀ p ∈ pieces, goodPiece ts p = true) →
      ∃ d, parsePieces ts resp pieces info = Except.ok d := by
  intro pieces
  induction pieces with
  | nil => exact fun info _ => ⟨info, rfl⟩
  | cons piece rest ih =>
    intro info hall
    obtain ⟨l, r, v, _, _, hstep⟩ :=
      parsePieces_cons_good ts resp piece rest info
        (hall piece (List.mem_cons_self piece rest))
    rw [hstep]
    exact ih (dictInsert info l v)
      (fun p hp => hall p (List.mem_cons_of_mem piece hp))

theorem find?_cons_eval {α : Type} (p : α → Bool) (a : α) (l : List α) :
    List.find? p (a :: l) = if p a then some a else List.find? p l := by
  cases hpa : p a <;> simp [List.find?, hpa]

theorem parsePieces_first_bad (ts : List (String × Conv)) (resp : String) :
    ∀ (pieces : List String) (info : Dict) (p : String),
      pieces.find? (fun x => !goodPiece ts x) = some p →
      parsePieces ts resp pieces info =
        Except.error (DriverError.invalidResponse (cantParseMsg p resp)) := by
  intro pieces
  induction pieces with
  | nil => intro info p h; exact absurd h (by simp)
  | cons piece rest ih =>
    intro info p h
    by_cases hg : goodPiece ts piece = true
    · rw [find?_cons_eval (fun x => !goodPiece ts x) piece rest] at h
      simp only [hg, Bool.not_true, if_false] at h
      obtain ⟨l, r, v, _, _, hstep⟩ :=
        parsePieces_cons_good ts resp piece rest info hg
      rw [hstep]
      exact ih (dictInsert info l v) p h
    · rw [Bool.not_eq_true] at hg
      rw [find?_cons_eval (fun x => !goodPiece ts x) piece rest] at h
      simp only [hg, Bool.not_false, if_true, Option.some.injEq] at h
      cases h
      exact parsePieces_cons_bad ts resp piece rest info hg

/-- C5: when a response line has been read and acknowledged, ask returns
the parsed key-to-converted-value dict with the raw line when every
whitespace token has a colon and survives its registered conversion; if
some token lacks a colon or its value fails conversion, ask fails with
InvalidResponse built from the first such token, and the message embeds
the repr of the offending raw token. -/
theorem ask_parse_spec (ts : List (String × Conv)) (cmd raw a1 a2 : String)
    (rest w : List String)
    (h0 : endsNewline raw = true)
    (ha1 : endsNewline a1 = true) (ha2 : pyRstrip a1 = "ok")
    (hb1 : endsNewline a2 = true) (hb2 : pyRstrip a2 = "ok") :
    ((∀ p ∈ pySplit (pyStrip (pyRstrip raw)), goodPiece ts p = true) →
      ∃ d, ask ⟨raw :: a1 :: a2 :: rest, w⟩ cmd ts =
        (Except.ok (d, pyStrip (pyRstrip raw)), ⟨rest, w ++ [cmd ++ "\r\n"]⟩)) ∧
    (∀ p, (pySplit (pyStrip (pyRstrip raw))).find?
        (fun x => !goodPiece ts x) = some p →
      ask ⟨raw :: a1 :: a2 :: rest, w⟩ cmd ts =
        (Except.error (DriverError.invalidResponse
          (cantParseMsg p (pyStrip (pyRstrip raw)))),
         ⟨rest, w ++ [cmd ++ "\r\n"]⟩) ∧
      ∃ u v, cantParseMsg p (pyStrip (pyRstrip raw)) = u ++ pyRepr p ++ v) := by
  constructor
  · intro hall
    obtain ⟨d, hd⟩ :=
      parsePieces_all_good ts (pyStrip (pyRstrip raw))
        (pySplit (pyStrip (pyRstrip raw))) [] hall
    exact ⟨d, ask_run_ok cmd ts raw a1 a2 rest w d h0 ha1 ha2 hb1 hb2 hd⟩
  · intro p hp
    refine ⟨ask_run_err cmd ts raw a1 a2 rest w _ h0 ha1 ha2 hb1 hb2
      (parsePieces_first_bad ts (pyStrip (pyRstrip raw))
        (pySplit (pyStrip (pyRstrip raw))) [] p hp), ?_⟩
    exact ⟨"Couldn" ++ squote ++ "t parse this part: ",
      " -- full response was " ++ pyRepr (pyStrip (pyRstrip raw)),
      by simp [cantParseMsg, String.append_assoc]⟩

/-- C5 witness: a fully well-formed M105 line parses to a dict, while a
line whose first token lacks a colon, and a line whose C value is not
numeric, each fail with the message built from the offending token. -/
theorem ask_parse_spec_witness :
    (∃ d, ask ⟨["C:25.5 T:none\n", "ok\n", "ok\n"], []⟩ "M105"
        [("C", Conv.toFloat), ("T", Conv.floatOrNone)] =
      (Except.ok (d, "C:25.5 T:none"), ⟨[], ["M105\r\n"]⟩)) ∧
    ask ⟨["C:abc T:none\n", "ok\n", "ok\n"], []⟩ "M105"
        [("C", Conv.toFloat), ("T", Conv.floatOrNone)] =
      (Except.error (DriverError.invalidResponse
        (cantParseMsg "C:abc" "C:abc T:none")), ⟨[], ["M105\r\n"]⟩) :=
  ⟨(ask_parse_spec [("C", Conv.toFloat), ("T", Conv.floatOrNone)] "M105"
      "C:25.5 T:none\n" "ok\n" "ok\n" [] [] (by decide) (by decide) (by decide)
      (by decide) (by decide)).1 (by decide),
   ((ask_parse_spec [("C", Conv.toFloat), ("T", Conv.floatOrNone)] "M105"
      "C:abc T:none\n" "ok\n" "ok\n" [] [] (by decide) (by decide) (by decide)
      (by decide) (by decide)).2 "C:abc" (by decide)).1⟩

end TempdeckControl

theorem wordsAcc_nonspace_append (w : List Char) :
    ∀ (rest acc : List Char), (∀ c ∈ w, pyIsSpace c = false) →
      wordsAcc (w ++ rest) acc = wordsAcc rest (w.reverse ++ acc) := by
  induction w with
  | nil => intro rest acc _; simp
  | cons c cs ih =>
    intro rest acc hw
    have hc : pyIsSpace c = false := hw c (List.mem_cons_self c cs)
    rw [List.cons_append,
      show wordsAcc (c :: (cs ++ rest)) acc = wordsAcc (cs ++ rest) (c :: acc)
        from by simp [wordsAcc, hc],
      ih rest (c :: acc) (fun d hd => hw d (List.mem_cons_of_mem c hd))]
    simp [List.append_assoc]

theorem isEmpty_false_of_ne_nil {α : Type} {l : List α} (h : l ≠ []) :
    l.isEmpty = false := by
  cases l
  · exact absurd rfl h
  · rfl

theorem wordsAcc_space_cons (c : Char) (l acc : List Char)
    (hc : pyIsSpace c = true) (hacc : acc ≠ []) :
    wordsAcc (c :: l) acc = acc.reverse :: wordsAcc l [] := by
  simp [wordsAcc, hc, isEmpty_false_of_ne_nil hacc]

theorem wordsAcc_nil_acc (acc : List Char) (hacc : acc ≠ []) :
    wordsAcc [] acc = [acc.reverse] := by
  simp [wordsAcc, isEmpty_false_of_ne_nil hacc]

theorem wordsAcc_two_tokens (t1 t2 : List Char)
    (h1 : ∀ c ∈ t1, pyIsSpace c = false) (h2 : ∀ c ∈ t2, pyIsSpace c = false)
    (n1 : t1 ≠ []) (n2 : t2 ≠ []) :
    wordsAcc (t1 ++ ' ' :: t2) [] = [t1, t2] := by
  rw [wordsAcc_nonspace_append t1 (' ' :: t2) [] h1, List.append_nil,
    wordsAcc_space_cons ' ' t2 t1.reverse rfl (by simpa using n1)]
  have ht2 : wordsAcc t2 [] = [t2] := by
    have h3 := wordsAcc_nonspace_append t2 [] [] h2
    rw [List.append_nil, List.append_nil] at h3
    rw [h3, wordsAcc_nil_acc t2.reverse (by simpa using n2), List.reverse_reverse]
  rw [ht2, List.reverse_reverse]

theorem isDigitChar_nonspace (c : Char) (h : isDigitChar c = true) :
    pyIsSpace c = false := by
  have hm : c ∈ digitChars := by simpa [isDigitChar] using h
  simp only [digitChars, List.mem_cons, List.not_mem_nil, or_false] at hm
  rcases hm with rfl | rfl | rfl | rfl | rfl | rfl | rfl | rfl | rfl | rfl <;> rfl

theorem pyFloatMag_nonspace (cs : List Char) (p : Nat × Nat)
    (h : pyFloatMag cs = some p) : ∀ c ∈ cs, pyIsSpace c = false := by
  intro c hc
  unfold pyFloatMag at h
  rcases hrest : cs.dropWhile isDigitChar with _ | ⟨d, frac⟩
  · have hall : ∀ x ∈ cs, isDigitChar x = true := by
      rw [← List.dropWhile_eq_nil_iff]
      exact hrest
    exact isDigitChar_nonspace c (hall c hc)
  · rw [hrest] at h
    simp only at h
    split_ifs at h with hd hfrac hie
    · have hcs : cs = cs.takeWhile isDigitChar ++ (d :: frac) := by
        rw [← hrest, List.takeWhile_append_dropWhile]
      rw [hcs] at hc
      rcases List.mem_append.mp hc with hc1 | hc2
      · exact isDigitChar_nonspace c (List.mem_takeWhile_imp hc1)
      · rcases List.mem_cons.mp hc2 with rfl | hc3
        · rw [eq_of_beq hd]; rfl
        · exact isDigitChar_nonspace c ((List.all_eq_true.mp hfrac) c hc3)

theorem pyFloat_nonempty (s : String) (q : Rat) (h : pyFloat s = some q) :
    s.data ≠ [] := by
  intro hnil
  unfold pyFloat at h
  rw [hnil] at h
  have h2 : Option.map (fun p : Nat × Nat => mkRat (p.fst : Int) p.snd)
      (pyFloatMag ([] : List Char)) = some q := h
  rw [show pyFloatMag ([] : List Char) = Option.none from rfl] at h2
  exact absurd h2 (by simp)

theorem pyFloat_nonspace (s : String) (q : Rat) (h : pyFloat s = some q) :
    ∀ c ∈ s.data, pyIsSpace c = false := by
  intro c hc
  unfold pyFloat at h
  split at h
  next cs heq =>
    rcases hm : pyFloatMag cs with _ | p
    · rw [hm] at h
      exact absurd h (by simp)
    · rw [heq] at hc
      rcases List.mem_cons.mp hc with rfl | hc2
      · rfl
      · exact pyFloatMag_nonspace cs p hm c hc2
  next cs heq =>
    rcases hm : pyFloatMag cs with _ | p
    · rw [hm] at h
      exact absurd h (by simp)
    · rw [heq] at hc
      rcases List.mem_cons.mp hc with rfl | hc2
      · rfl
      · exact pyFloatMag_nonspace cs p hm c hc2
  next h1 h2 =>
    rcases hm : pyFloatMag s.data with _ | p
    · rw [hm] at h
      exact absurd h (by simp)
    · exact pyFloatMag_nonspace s.data p hm c hc

theorem lstripL_cons_nonspace (c : Char) (l : List Char)
    (h : pyIsSpace c = false) : lstripL (c :: l) = c :: l := by
  simp [lstripL, List.dropWhile_cons, h]

theorem rstripL_token_line (t1 t2 : List Char)
    (h2 : ∀ c ∈ t2, pyIsSpace c = false) (n2 : t2 ≠ []) :
    rstripL (t1 ++ ' ' :: t2) = t1 ++ ' ' :: t2 := by
  have e2 : t1 ++ ' ' :: t2 = (t1 ++ [' ']) ++ t2 := by simp
  rw [e2, rstripL_no_trailing _ t2 h2 n2]

theorem strip_rstrip_token_line (t1 t2 : List Char)
    (h1 : ∀ c ∈ t1, pyIsSpace c = false) (h2 : ∀ c ∈ t2, pyIsSpace c = false)
    (n1 : t1 ≠ []) (n2 : t2 ≠ []) :
    pyStrip (pyRstrip ⟨t1 ++ ' ' :: t2 ++ ['\n']⟩) = ⟨t1 ++ ' ' :: t2⟩ := by
  have e1 : t1 ++ ' ' :: t2 ++ ['\n'] = (t1 ++ ' ' :: t2) ++ ['\n'] := by simp
  have hr : rstripL (t1 ++ ' ' :: t2 ++ ['\n']) = t1 ++ ' ' :: t2 := by
    rw [e1, rstripL_append_spaces _ ['\n'] (by decide),
      rstripL_token_line t1 t2 h2 n2]
  show (⟨lstripL (rstripL (rstripL (t1 ++ ' ' :: t2 ++ ['\n'])))⟩ : String) = _
  rw [hr, rstripL_token_line t1 t2 h2 n2]
  rcases t1 with _ | ⟨c, t1r⟩
  · exact absurd rfl n1
  · rw [List.cons_append,
      lstripL_cons_nonspace c _ (h1 c (List.mem_cons_self c t1r)),
      ← List.cons_append]

theorem pySplit_token_line (t1 t2 : List Char)
    (h1 : ∀ c ∈ t1, pyIsSpace c = false) (h2 : ∀ c ∈ t2, pyIsSpace c = false)
    (n1 : t1 ≠ []) (n2 : t2 ≠ []) :
    pySplit ⟨t1 ++ ' ' :: t2⟩ = [⟨t1⟩, ⟨t2⟩] := by
  show (wordsAcc (t1 ++ ' ' :: t2) []).map (fun l => (⟨l⟩ : String)) = _
  rw [wordsAcc_two_tokens t1 t2 h1 h2 n1 n2]
  rfl

theorem pySplitColon1_key (k : Char) (f : String) (hk : (k == ':') = false) :
    pySplitColon1 ⟨k :: ':' :: f.data⟩ = some (⟨[k]⟩, f) := by
  simp [pySplitColon1, splitFirstColon, hk]

namespace TempdeckControl

theorem parseResponse_two_tokens (ts : List (String × Conv)) (t1 t2 : List Char)
    (l1 r1 l2 r2 : String) (v1 v2 : PyVal)
    (hs1 : pySplitColon1 ⟨t1⟩ = some (l1, r1))
    (hv1 : applyConv (typesGet ts l1) r1 = some v1)
    (hs2 : pySplitColon1 ⟨t2⟩ = some (l2, r2))
    (hv2 : applyConv (typesGet ts l2) r2 = some v2)
    (hne : (l1 == l2) = false)
    (h1 : ∀ c ∈ t1, pyIsSpace c = false) (h2 : ∀ c ∈ t2, pyIsSpace c = false)
    (n1 : t1 ≠ []) (n2 : t2 ≠ []) :
    parseResponse ts ⟨t1 ++ ' ' :: t2⟩ = Except.ok [(l1, v1), (l2, v2)] := by
  unfold parseResponse
  rw [pySplit_token_line t1 t2 h1 h2 n1 n2]
  simp [parsePieces, hs1, hv1, hs2, hv2, dictInsert, hne]

end TempdeckControl

theorem endsNewline_mk_concat (l : List Char) : endsNewline ⟨l ++ ['\n']⟩ = true := by
  simp [endsNewline, List.getLast?_concat]

namespace TempdeckControl

/-- C2: for M105 response lines made of a C token whose value parses as
a float and a T token whose value is the literal none or parses as a
float, get_temps returns the pair (target, current) built from the T and
C values respectively, identically for both token orders, with T none
mapped to the distinguished absent value, which is a different value
from the float zero. -/
theorem get_temps_token_order_spec (f g : String) (qf : Rat) (tv : PyVal)
    (a1 a2 : String) (rest w : List String)
    (hf : pyFloat f = some qf)
    (hg : (g = "none" ∧ tv = PyVal.none) ∨
          (∃ qg, pyFloat g = some qg ∧ tv = PyVal.float qg))
    (ha1 : endsNewline a1 = true) (ha2 : pyRstrip a1 = "ok")
    (hb1 : endsNewline a2 = true) (hb2 : pyRstrip a2 = "ok") :
    get_temps ⟨("C:" ++ f ++ " T:" ++ g ++ "\n") :: a1 :: a2 :: rest, w⟩ =
      (Except.ok (tv, PyVal.float qf), ⟨rest, w ++ ["M105\r\n"]⟩) ∧
    get_temps ⟨("T:" ++ g ++ " C:" ++ f ++ "\n") :: a1 :: a2 :: rest, w⟩ =
      (Except.ok (tv, PyVal.float qf), ⟨rest, w ++ ["M105\r\n"]⟩) ∧
    PyVal.none ≠ PyVal.float 0 := by
  have hfs : ∀ c ∈ f.data, pyIsSpace c = false := pyFloat_nonspace f qf hf
  have hfne : f.data ≠ [] := pyFloat_nonempty f qf hf
  have hgs : ∀ c ∈ g.data, pyIsSpace c = false := by
    rcases hg with ⟨rfl, _⟩ | ⟨qg, hq, _⟩
    · decide
    · exact pyFloat_nonspace g qg hq
  have hgne : g.data ≠ [] := by
    rcases hg with ⟨rfl, _⟩ | ⟨qg, hq, _⟩
    · decide
    · exact pyFloat_nonempty g qg hq
  have hvC : applyConv Conv.toFloat f = some (PyVal.float qf) := by
    simp [applyConv, hf]
  have hvT : applyConv Conv.floatOrNone g = some tv := by
    rcases hg with ⟨rfl, rfl⟩ | ⟨qg, hq, rfl⟩
    · rfl
    · have hne2 : (g == "none") = false := by
        rcases hgb : g == "none" with _ | _
        · rfl
        · rw [eq_of_beq hgb,
            show pyFloat "none" = Option.none from by decide] at hq
          exact Option.noConfusion hq
      simp [applyConv, hne2, hq]
  have h1 : ∀ c ∈ 'C' :: ':' :: f.data, pyIsSpace c = false := by
    intro c hc
    rcases List.mem_cons.mp hc with rfl | hc2
    · rfl
    rcases List.mem_cons.mp hc2 with rfl | hc3
    · rfl
    · exact hfs c hc3
  have h2 : ∀ c ∈ 'T' :: ':' :: g.data, pyIsSpace c = false := by
    intro c hc
    rcases List.mem_cons.mp hc with rfl | hc2
    · rfl
    rcases List.mem_cons.mp hc2 with rfl | hc3
    · rfl
    · exact hgs c hc3
  have hs1 : pySplitColon1 ⟨'C' :: ':' :: f.data⟩ = some ("C", f) :=
    pySplitColon1_key 'C' f (by decide)
  have hs2 : pySplitColon1 ⟨'T' :: ':' :: g.data⟩ = some ("T", g) :=
    pySplitColon1_key 'T' g (by decide)
  have hpCT : parseResponse [("C", Conv.toFloat), ("T", Conv.floatOrNone)]
      ⟨('C' :: ':' :: f.data) ++ ' ' :: ('T' :: ':' :: g.data)⟩ =
      Except.ok [("C", PyVal.float qf), ("T", tv)] :=
    parseResponse_two_tokens _ _ _ "C" f "T" g _ _ hs1 hvC hs2 hvT
      (by decide) h1 h2 (by simp) (by simp)
  have hpTC : parseResponse [("C", Conv.toFloat), ("T", Conv.floatOrNone)]
      ⟨('T' :: ':' :: g.data) ++ ' ' :: ('C' :: ':' :: f.data)⟩ =
      Except.ok [("T", tv), ("C", PyVal.float qf)] :=
    parseResponse_two_tokens _ _ _ "T" g "C" f _ _ hs2 hvT hs1 hvC
      (by decide) h2 h1 (by simp) (by simp)
  have hLine1 : ("C:" ++ f ++ " T:" ++ g ++ "\n") =
      (⟨('C' :: ':' :: f.data) ++ ' ' :: ('T' :: ':' :: g.data) ++ ['\n']⟩ : String) := by
    apply String.ext
    have d1 : ("C:").data = ['C', ':'] := rfl
    have d2 : (" T:").data = [' ', 'T', ':'] := rfl
    have d3 : ("\n").data = ['\n'] := rfl
    simp [String.data_append, d1, d2, d3]
  have hLine2 : ("T:" ++ g ++ " C:" ++ f ++ "\n") =
      (⟨('T' :: ':' :: g.data) ++ ' ' :: ('C' :: ':' :: f.data) ++ ['\n']⟩ : String) := by
    apply String.ext
    have d1 : ("T:").data = ['T', ':'] := rfl
    have d2 : (" C:").data = [' ', 'C', ':'] := rfl
    have d3 : ("\n").data = ['\n'] := rfl
    simp [String.data_append, d1, d2, d3]
  have hEnds : ∀ t1 t2 : List Char,
      endsNewline (⟨t1 ++ ' ' :: t2 ++ ['\n']⟩ : String) = true := by
    intro t1 t2
    rw [show t1 ++ ' ' :: t2 ++ ['\n'] = (t1 ++ ' ' :: t2) ++ ['\n'] from by simp]
    exact endsNewline_mk_concat _
  refine ⟨?_, ?_, by simp⟩
  · rw [hLine1]
    have hp : parseResponse [("C", Conv.toFloat), ("T", Conv.floatOrNone)]
        (pyStrip (pyRstrip
          ⟨('C' :: ':' :: f.data) ++ ' ' :: ('T' :: ':' :: g.data) ++ ['\n']⟩)) =
        Except.ok [("C", PyVal.float qf), ("T", tv)] := by
      rw [strip_rstrip_token_line _ _ h1 h2 (by simp) (by simp)]
      exact hpCT
    simp only [get_temps]
    rw [ask_run_ok "M105" _ _ a1 a2 rest w _ (hEnds _ _) ha1 ha2 hb1 hb2 hp]
    rfl
  · rw [hLine2]
    have hp : parseResponse [("C", Conv.toFloat), ("T", Conv.floatOrNone)]
        (pyStrip (pyRstrip
          ⟨('T' :: ':' :: g.data) ++ ' ' :: ('C' :: ':' :: f.data) ++ ['\n']⟩)) =
        Except.ok [("T", tv), ("C", PyVal.float qf)] := by
      rw [strip_rstrip_token_line _ _ h2 h1 (by simp) (by simp)]
      exact hpTC
    simp only [get_temps]
    rw [ask_run_ok "M105" _ _ a1 a2 rest w _ (hEnds _ _) ha1 ha2 hb1 hb2 hp]
    rfl

end TempdeckControl

namespace TempdeckControl

/-- C2 witness: the line C:25.5 T:none yields the absent target with
current 25.5, and the order-swapped line T:20.0 C:25.5 yields target
20 with current 25.5. -/
theorem get_temps_token_order_spec_witness :
    get_temps ⟨["C:25.5 T:none\n", "ok\n", "ok\n"], []⟩ =
      (Except.ok (PyVal.none, PyVal.float (mkRat 51 2)), ⟨[], ["M105\r\n"]⟩) ∧
    get_temps ⟨["T:20.0 C:25.5\n", "ok\n", "ok\n"], []⟩ =
      (Except.ok (PyVal.float 20, PyVal.float (mkRat 51 2)),
       ⟨[], ["M105\r\n"]⟩) :=
  ⟨(get_temps_token_order_spec "25.5" "none" (mkRat 51 2) PyVal.none
      "ok\n" "ok\n" [] [] (by decide) (Or.inl ⟨rfl, rfl⟩) (by decide)
      (by decide) (by decide) (by decide)).1,
   (get_temps_token_order_spec "25.5" "20.0" (mkRat 51 2) (PyVal.float 20)
      "ok\n" "ok\n" [] [] (by decide) (Or.inr ⟨20, by decide, rfl⟩) (by decide)
      (by decide) (by decide) (by decide)).2.1⟩

end TempdeckControl
